import Mathlib

set_option linter.unusedVariables false

/-!
Shallow embedding of the annotation-conversion code of `dataset_maker`
(`annotations.py` and `annotations/instance_segmentation.py`), together with
theorems settling the specification claims about it.  Each definition's doc
comment points at the source lines it embeds.
-/

namespace DatasetMaker

/-- annotations.py line 12: the tuple of recognised image filename extensions. -/
def IMAGE_FORMATS : List String := [".png", ".PNG", ".jpg", ".JPG", ".jpeg", ".JPEG"]

/-- An image as delivered by the external reader (matplotlib's `imread`):
a row-major pixel array with `height` rows, `width` columns and `depth`
channels. -/
structure Image where
  height : ℕ
  width : ℕ
  depth : ℕ
deriving DecidableEq

/-- numpy's `.shape` of such an array: `(rows, columns, channels)`,
i.e. `(height, width, depth)`. -/
def Image.shape (img : Image) : ℕ × ℕ × ℕ := (img.height, img.width, img.depth)

/-- Truncation toward zero: the effect of numpy's cast to `int32`
(`np.asarray(..., dtype="int32")`) on a (small, exactly represented)
rational value. -/
def npTrunc (q : ℚ) : ℤ := Int.tdiv q.num (q.den : ℤ)

/-- Python's `str.strip(chars)`: removes every leading and trailing character
that occurs anywhere in `chars` (a character set, not a suffix). -/
def pyStrip (s chars : String) : String :=
  let cs := chars.toList
  String.mk (((s.toList.dropWhile (fun c => cs.contains c)).reverse.dropWhile
    (fun c => cs.contains c)).reverse)

/-- Python's `str.endswith(suffix)`. -/
def pyEndsWith (s suffix : String) : Bool :=
  suffix.toList.isSuffixOf s.toList

/-- annotations.py lines 101 and 159:
`save_name = reduce(lambda n, fmt: n.strip(fmt), IMAGE_FORMATS, name)`. -/
def saveName (name : String) : String :=
  IMAGE_FORMATS.foldl (fun n fmt => pyStrip n fmt) name

/-- annotations.py line 102: the PascalVOC output file is named
`{save_name}.xml`. -/
def PascalVOC.outputFileName (name : String) : String := saveName name ++ ".xml"

/-- annotations.py line 160: the YOLO output file is named
`{save_name}.txt`. -/
def YOLO.outputFileName (name : String) : String := saveName name ++ ".txt"

/-- One `object` element as written by annotations.py lines 91–99. -/
structure VOCObj where
  name : String
  xmin : ℤ
  ymin : ℤ
  xmax : ℤ
  ymax : ℤ
deriving DecidableEq

/-- One PascalVOC XML document as written by annotations.py lines 77–99:
folder, file, the three size children and the object elements. -/
structure VOCDoc where
  folder : String
  file : String
  sizeWidth : ℕ
  sizeHeight : ℕ
  sizeDepth : ℕ
  objs : List VOCObj
deriving DecidableEq

/-- annotations.py, `PascalVOC.download` body for one record (lines 79–99):
`w, h, d = image.shape`; the size element's width, height, depth children hold
`w`, `h`, `d`; each object element holds the label and the box corners
(`xmin := x0`, `ymin := y0`, `xmax := x1`, `ymax := y1` from the bbox
`(y0, x0, y1, x1)`). -/
def PascalVOC.downloadDoc (folder name : String) (img : Image)
    (objsIn : List ((ℤ × ℤ × ℤ × ℤ) × String)) : VOCDoc :=
  let (w, h, d) := img.shape
  { folder := folder, file := name,
    sizeWidth := w, sizeHeight := h, sizeDepth := d,
    objs := objsIn.map (fun p =>
      { name := p.2, xmin := p.1.2.1, ymin := p.1.1,
        xmax := p.1.2.2.2, ymax := p.1.2.2.1 }) }

/-- annotations.py, `PascalVOC.load` body for one document (lines 59–74):
the record name from the file element; per object the bbox
`[y0, x0, y1, x1]` from the ymin, xmin, ymax, xmax children and the label
from the name element. -/
def PascalVOC.loadDoc (doc : VOCDoc) : String × List ((ℤ × ℤ × ℤ × ℤ) × String) :=
  (doc.file, doc.objs.map (fun o => ((o.ymin, o.xmin, o.ymax, o.xmax), o.name)))

/-- One line of a YOLO annotation file, `label x0 y0 dx dy`, with the numeric
tokens read as exact rationals and the fields named as `YOLO.load` line 148
names them (`cls, x0, y0, dx, dy = line.split()`). -/
structure YoloLine where
  cls : String
  x0 : ℚ
  y0 : ℚ
  dx : ℚ
  dy : ℚ
deriving DecidableEq

/-- annotations.py, `YOLO.load` per line (lines 143–151): with
`w, h, _ = image.shape`, a line yields the bbox
`[y0*h, x0*w, (y0+dy)*h, (x0+dx)*w]` cast to `int32`, and the line's first
token as the class. -/
def YOLO.loadLine (img : Image) (l : YoloLine) : (ℤ × ℤ × ℤ × ℤ) × String :=
  let (w, h, _) := img.shape
  ((npTrunc (l.y0 * (h : ℚ)), npTrunc (l.x0 * (w : ℚ)),
    npTrunc ((l.y0 + l.dy) * (h : ℚ)), npTrunc ((l.x0 + l.dx) * (w : ℚ))), l.cls)

/-- annotations.py, `YOLO.download` per object (lines 156–163): with
`w, h, d = image.shape` and the bbox `(y0, x0, y1, x1)`, writes the line
`{classes_dict[c]} {x0 / w} {y0 / h} {(x1 - x0) / w} {(y1 - y0) / h}`. -/
def YOLO.downloadLine (classesDict : String → ℕ) (img : Image)
    (bb : ℤ × ℤ × ℤ × ℤ) (c : String) : YoloLine :=
  let (w, h, _) := img.shape
  { cls := toString (classesDict c),
    x0 := (bb.2.1 : ℚ) / (w : ℚ),
    y0 := (bb.1 : ℚ) / (h : ℚ),
    dx := ((bb.2.2.2 - bb.2.1 : ℤ) : ℚ) / (w : ℚ),
    dy := ((bb.2.2.1 - bb.1 : ℤ) : ℚ) / (h : ℚ) }

/-- annotations.py line 157:
`classes_dict = {n: i for i, n in enumerate({cls for ...})}` — ids from 0
following the set's iteration order, the iteration order being given here
explicitly as the list `order`. -/
def YOLO.classesDict (order : List String) (c : String) : ℕ := order.indexOf c

/-- Modelled from the claim's words (C1): the first two numeric fields are the
box center and the last two its normalized width and height; over an image of
pixel width `img.width` and pixel height `img.height` the absolute integer
pixel bbox `(y0, x0, y1, x1)` is then
`((cy - dh/2)·h, (cx - dw/2)·w, (cy + dh/2)·h, (cx + dw/2)·w)`. -/
def yoloDecodeCenterSpec (img : Image) (l : YoloLine) : ℤ × ℤ × ℤ × ℤ :=
  (npTrunc ((l.y0 - l.dy / 2) * (img.height : ℚ)),
   npTrunc ((l.x0 - l.dx / 2) * (img.width : ℚ)),
   npTrunc ((l.y0 + l.dy / 2) * (img.height : ℚ)),
   npTrunc ((l.x0 + l.dx / 2) * (img.width : ℚ)))

/-- The convention the source actually implements (amended claim C1): the
first two numeric fields are the top-left corner and the last two the box
extents; the y fields are scaled by the second shape component (the pixel
width) and the x fields by the first shape component (the pixel height),
all truncated to integers. -/
def yoloDecodeCornerConv (img : Image) (l : YoloLine) : ℤ × ℤ × ℤ × ℤ :=
  (npTrunc (l.y0 * (img.width : ℚ)),
   npTrunc (l.x0 * (img.height : ℚ)),
   npTrunc ((l.y0 + l.dy) * (img.width : ℚ)),
   npTrunc ((l.x0 + l.dx) * (img.height : ℚ)))

/-- The structured record assembled by `create_tfrecord`
(instance_segmentation.py lines 89–103), one field per feature key, holding
the payload the source passes for that key.  The mask feature holds exactly
what line 102 passes, namely the whole raw `masks` argument (the per-record
list of raw mask arrays), not the `encode_masks` list computed at lines
78–81. -/
structure TFExample (Bytes MaskT : Type) where
  height : ℕ
  width : ℕ
  filename : String
  sourceId : String
  encodedImage : Bytes
  imageFormat : String
  xmins : List ℚ
  xmaxs : List ℚ
  ymins : List ℚ
  ymaxs : List ℚ
  classesText : List String
  classLabels : List ℕ
  maskFeature : List (List MaskT)
deriving DecidableEq

/-- instance_segmentation.py, `create_tfrecord` body for one record (lines
54–103).  `pngEncode` stands for the external PIL PNG encoding of one mask
(lines 78–81); the list it produces (`encode_masks`) is computed and then
never used, because line 102 passes the raw `masks` argument (`masksAll`
here).  `width, height = image.size` is PIL's `(width, height)`, so here the
true pixel width and height. -/
def createExample (Bytes MaskT : Type) (pngEncode : MaskT → Bytes)
    (classMap : String → ℕ) (encodedImage : Bytes) (img : Image)
    (filename : String) (bboxPer : List (ℤ × ℤ × ℤ × ℤ)) (maskPer : List MaskT)
    (clsPer : List String) (masksAll : List (List MaskT)) : TFExample Bytes MaskT :=
  let zipped := bboxPer.zip (maskPer.zip clsPer)
  let encodeMasks := zipped.map (fun p => pngEncode p.2.1)
  { height := img.height, width := img.width,
    filename := filename, sourceId := filename,
    encodedImage := encodedImage,
    imageFormat := (filename.splitOn (".")).getLastD "",
    xmins := zipped.map (fun p => (p.1.2.1 : ℚ) / (img.width : ℚ)),
    xmaxs := zipped.map (fun p => (p.1.2.2.2 : ℚ) / (img.width : ℚ)),
    ymins := zipped.map (fun p => (p.1.1 : ℚ) / (img.height : ℚ)),
    ymaxs := zipped.map (fun p => (p.1.2.2.1 : ℚ) / (img.height : ℚ)),
    classesText := zipped.map (fun p => p.2.2),
    classLabels := zipped.map (fun p => classMap p.2.2),
    maskFeature := masksAll }

/-- instance_segmentation.py lines 47–49:
`class_map = {cls: idx for idx, cls in enumerate(unique_classes, 1)}` — ids
from 1 following the iteration order of the set `unique_classes`, the
iteration order being given here explicitly as the list `order`. -/
def classMapFromOrder (order : List String) (c : String) : ℕ := order.indexOf c + 1

/-- instance_segmentation.py lines 105–106 iterated over the export loop:
starting from the given shard contents, the record at sequence index `idx`
is appended to output `idx % num_shards`. -/
def shardWriteLoop {β : Type} (S : ℕ) : List (ℕ × β) → (ℕ → List β) → ℕ → List β
  | [], shards => shards
  | (i, b) :: rest, shards =>
      shardWriteLoop S rest (fun s => if i % S = s then shards s ++ [b] else shards s)

/-- The shard contents produced by `create_tfrecord` for the sequence of
serialized records `recs` and `num_shards = S`: all shards start empty and
each record is routed by sequence index. -/
def createTfrecordShards {β : Type} (S : ℕ) (recs : List β) : ℕ → List β :=
  shardWriteLoop S recs.enum (fun _ => [])

/-- The failure modes of the shared discovery rules: the spec's names for the
AssertionErrors raised at instance_segmentation.py lines 164–167 and
annotations.py lines 132–135. -/
inductive LoadErr where
  | missingAnnotSource
  | ambiguousAnnotSource
  | missingImage
  | ambiguousImage
deriving DecidableEq

/-- instance_segmentation.py, `VGG.load` lines 160–168: if the location ends
in `.json` it is itself taken as the annotations file name; otherwise exactly
one `.json` file must occur in the directory listing (zero → missing
annotation source, more than one → ambiguous annotation source). -/
def VGG.resolveAnnotFile (annotDir : String) (listing : List String) :
    Except LoadErr String :=
  if pyEndsWith annotDir (".json") then Except.ok annotDir
  else
    match listing.filter (fun f => pyEndsWith f (".json")) with
    | [] => Except.error LoadErr.missingAnnotSource
    | [f] => Except.ok f
    | _ :: _ :: _ => Except.error LoadErr.ambiguousAnnotSource

/-- instance_segmentation.py line 169: the file actually opened is
`{annotations_dir}/{annotations_file}`. -/
def VGG.openedPath (annotDir : String) (listing : List String) :
    Except LoadErr String :=
  match VGG.resolveAnnotFile annotDir listing with
  | Except.ok f => Except.ok (annotDir ++ "/" ++ f)
  | Except.error e => Except.error e

/-- annotations.py, `YOLO.load` lines 126–130: the candidate image paths
`{image_dir}/{file.strip('.txt')}{fmt}`, over all of `IMAGE_FORMATS`, that
exist on disk (`pathExists` abstracts `os.path.exists`). -/
def YOLO.imageCandidates (pathExists : String → Bool) (imageDir file : String) :
    List String :=
  (IMAGE_FORMATS.map (fun fmt => imageDir ++ "/" ++ pyStrip file (".txt") ++ fmt)).filter
    pathExists

/-- annotations.py lines 132–137: exactly one candidate image must exist
(zero → missing image, more than one → ambiguous image). -/
def YOLO.resolveImage (pathExists : String → Bool) (imageDir file : String) :
    Except LoadErr String :=
  match YOLO.imageCandidates pathExists imageDir file with
  | [] => Except.error LoadErr.missingImage
  | [p] => Except.ok p
  | _ :: _ :: _ => Except.error LoadErr.ambiguousImage

/-- A constant `os.path.exists` oracle for an empty image directory. -/
def noFile : String → Bool := fun _ => false

/-- A mask encoder that produces no bytes; used to instantiate `createExample`
with two observably different encoders. -/
def constEmptyBytes : ℕ → String := fun _ => ""

/-! Helper lemmas shared by the claim theorems. -/

theorem npTrunc_intCast (a : ℤ) : npTrunc (a : ℚ) = a := by
  simp [npTrunc, Int.tdiv_one]

theorem npTrunc_eq_of (q : ℚ) (a : ℤ) (h : q = (a : ℚ)) : npTrunc q = a := by
  rw [h, npTrunc_intCast]

theorem npTrunc_div_mul (a : ℤ) (n : ℕ) (hn : n ≠ 0) :
    npTrunc ((a : ℚ) / (n : ℚ) * (n : ℚ)) = a := by
  have hnQ : ((n : ℕ) : ℚ) ≠ 0 := Nat.cast_ne_zero.mpr hn
  rw [div_mul_cancel₀ _ hnQ, npTrunc_intCast]

theorem npTrunc_add_div_mul (a b : ℤ) (n : ℕ) (hn : n ≠ 0) :
    npTrunc (((a : ℚ) / (n : ℚ) + (((b - a : ℤ)) : ℚ) / (n : ℚ)) * (n : ℚ)) = b := by
  have h : ((a : ℚ) / (n : ℚ) + (((b - a : ℤ)) : ℚ) / (n : ℚ)) = (b : ℚ) / (n : ℚ) := by
    rw [div_add_div_same]
    push_cast
    ring_nf
  rw [h]
  exact npTrunc_div_mul b n hn

/-- Writing one object with `YOLO.download` and reading the line back with
`YOLO.load` reproduces the bbox exactly (the two sides scale by the same
shape components, which cancel in exact arithmetic), while the label comes
back as the decimal string of its class-map id. -/
theorem yolo_round_trip_line (d : String → ℕ) (img : Image) (bb : ℤ × ℤ × ℤ × ℤ)
    (c : String) (hh : img.height ≠ 0) (hw : img.width ≠ 0) :
    YOLO.loadLine img (YOLO.downloadLine d img bb c) = (bb, toString (d c)) := by
  obtain ⟨y0, x0, y1, x1⟩ := bb
  show ((npTrunc ((y0 : ℚ) / (img.width : ℚ) * (img.width : ℚ)),
         npTrunc ((x0 : ℚ) / (img.height : ℚ) * (img.height : ℚ)),
         npTrunc (((y0 : ℚ) / (img.width : ℚ) + (((y1 - y0 : ℤ)) : ℚ) / (img.width : ℚ)) *
           (img.width : ℚ)),
         npTrunc (((x0 : ℚ) / (img.height : ℚ) + (((x1 - x0 : ℤ)) : ℚ) / (img.height : ℚ)) *
           (img.height : ℚ))),
        toString (d c)) = ((y0, x0, y1, x1), toString (d c))
  rw [npTrunc_div_mul y0 img.width hw, npTrunc_div_mul x0 img.height hh,
    npTrunc_add_div_mul y0 y1 img.width hw, npTrunc_add_div_mul x0 x1 img.height hh]

theorem voc_round_map (objsIn : List ((ℤ × ℤ × ℤ × ℤ) × String)) :
    (objsIn.map (fun p =>
      ({ name := p.2, xmin := p.1.2.1, ymin := p.1.1,
         xmax := p.1.2.2.2, ymax := p.1.2.2.1 } : VOCObj))).map
      (fun o => ((o.ymin, o.xmin, o.ymax, o.xmax), o.name)) = objsIn := by
  induction objsIn with
  | nil => rfl
  | cons p t ih =>
      obtain ⟨⟨a, b, c, e⟩, s⟩ := p
      simpa using ih

/-- Writing a record with `PascalVOC.download` and parsing the document back
with `PascalVOC.load` reproduces the record name, all bboxes and all labels
exactly. -/
theorem voc_round_trip_doc (folder name : String) (img : Image)
    (objsIn : List ((ℤ × ℤ × ℤ × ℤ) × String)) :
    PascalVOC.loadDoc (PascalVOC.downloadDoc folder name img objsIn) = (name, objsIn) := by
  simp only [PascalVOC.loadDoc, PascalVOC.downloadDoc, Image.shape]
  rw [voc_round_map]

theorem shardWriteLoop_apply {β : Type} (S : ℕ) (l : List (ℕ × β))
    (acc : ℕ → List β) (s : ℕ) :
    shardWriteLoop S l acc s =
      acc s ++ (l.filter (fun p => decide (p.1 % S = s))).map Prod.snd := by
  induction l generalizing acc with
  | nil => simp [shardWriteLoop]
  | cons p t ih =>
      obtain ⟨i, b⟩ := p
      rw [shardWriteLoop, ih]
      by_cases h : i % S = s
      · simp [h]
      · simp [h]

theorem filter_mod_length_sum {β : Type} (S : ℕ) (hS : 1 ≤ S) (l : List (ℕ × β)) :
    (Finset.range S).sum
        (fun s => ((l.filter (fun p => decide (p.1 % S = s))).map Prod.snd).length) =
      l.length := by
  induction l with
  | nil => simp
  | cons p t ih =>
      obtain ⟨i, b⟩ := p
      have hmem : i % S ∈ Finset.range S := Finset.mem_range.mpr (Nat.mod_lt _ hS)
      have hstep : ∀ s : ℕ,
          ((((i, b) :: t).filter (fun q => decide (q.1 % S = s))).map Prod.snd).length =
            ((t.filter (fun q => decide (q.1 % S = s))).map Prod.snd).length +
              (if i % S = s then 1 else 0) := by
        intro s
        by_cases h : i % S = s
        · simp [List.filter_cons, h]
        · simp [List.filter_cons, h]
      calc (Finset.range S).sum
              (fun s => ((((i, b) :: t).filter (fun q => decide (q.1 % S = s))).map Prod.snd).length)
          = (Finset.range S).sum
              (fun s => ((t.filter (fun q => decide (q.1 % S = s))).map Prod.snd).length +
                (if i % S = s then 1 else 0)) := Finset.sum_congr rfl (fun s _ => hstep s)
        _ = (Finset.range S).sum
              (fun s => ((t.filter (fun q => decide (q.1 % S = s))).map Prod.snd).length) +
            (Finset.range S).sum (fun s => if i % S = s then 1 else 0) := Finset.sum_add_distrib
        _ = t.length + 1 := by
              rw [ih, Finset.sum_ite_eq (Finset.range S) (i % S) (fun _ => 1), if_pos hmem]
        _ = ((i, b) :: t).length := by simp

/-! The claim theorems. -/

/-- Claim C1, counterexample: on the 10×20×3 image and the line with numeric
fields (0.5, 0.5, 0.2, 0.2), `YOLO.load` produces the bbox (10, 5, 14, 7)
while the claimed center+size reading over pixel width 20 and height 10
produces (4, 8, 6, 12) — the decode does not use the center+size convention
claimed. -/
theorem yolo_decode_not_center :
    (YOLO.loadLine (Image.mk 10 20 3) (YoloLine.mk ("0") (1/2) (1/2) (1/5) (1/5))).1 ≠
      yoloDecodeCenterSpec (Image.mk 10 20 3) (YoloLine.mk ("0") (1/2) (1/2) (1/5) (1/5)) := by
  have h1 : (YOLO.loadLine (Image.mk 10 20 3) (YoloLine.mk ("0") (1/2) (1/2) (1/5) (1/5))).1 =
      ((10 : ℤ), (5 : ℤ), (14 : ℤ), (7 : ℤ)) := by
    show (npTrunc ((1/2 : ℚ) * ((20 : ℕ) : ℚ)), npTrunc ((1/2 : ℚ) * ((10 : ℕ) : ℚ)),
          npTrunc (((1/2 : ℚ) + (1/5 : ℚ)) * ((20 : ℕ) : ℚ)),
          npTrunc (((1/2 : ℚ) + (1/5 : ℚ)) * ((10 : ℕ) : ℚ))) =
        ((10 : ℤ), (5 : ℤ), (14 : ℤ), (7 : ℤ))
    rw [npTrunc_eq_of _ 10 (by norm_num), npTrunc_eq_of _ 5 (by norm_num),
      npTrunc_eq_of _ 14 (by norm_num), npTrunc_eq_of _ 7 (by norm_num)]
  have h2 : yoloDecodeCenterSpec (Image.mk 10 20 3) (YoloLine.mk ("0") (1/2) (1/2) (1/5) (1/5)) =
      ((4 : ℤ), (8 : ℤ), (6 : ℤ), (12 : ℤ)) := by
    show (npTrunc (((1/2 : ℚ) - (1/5 : ℚ) / 2) * ((10 : ℕ) : ℚ)),
          npTrunc (((1/2 : ℚ) - (1/5 : ℚ) / 2) * ((20 : ℕ) : ℚ)),
          npTrunc (((1/2 : ℚ) + (1/5 : ℚ) / 2) * ((10 : ℕ) : ℚ)),
          npTrunc (((1/2 : ℚ) + (1/5 : ℚ) / 2) * ((20 : ℕ) : ℚ))) =
        ((4 : ℤ), (8 : ℤ), (6 : ℤ), (12 : ℤ))
    rw [npTrunc_eq_of _ 4 (by norm_num), npTrunc_eq_of _ 8 (by norm_num),
      npTrunc_eq_of _ 6 (by norm_num), npTrunc_eq_of _ 12 (by norm_num)]
  rw [h1, h2]
  decide

/-- Claim C1, amended: for every YOLO line and every image, `YOLO.load`
interprets the first two numeric fields as the box's top-left corner and the
last two as its extents (corner+size, not center+size), scaling the y fields
by the second shape component (the pixel width) and the x fields by the first
shape component (the pixel height) and truncating to integers. -/
theorem yolo_decode_corner_conv_eq (img : Image) (l : YoloLine) :
    YOLO.loadLine img l = (yoloDecodeCornerConv img l, l.cls) := rfl

/-- Claim C2, counterexample: for the record with image 20×20×3, bbox
(2, 3, 10, 9) and label "cat", decoding the line written by `YOLO.download`
yields the label "0" (the class-map id as text), not "cat" — the YOLO round
trip does not reproduce identical labels. -/
theorem yolo_round_trip_label_diff :
    (YOLO.loadLine (Image.mk 20 20 3)
      (YOLO.downloadLine (YOLO.classesDict [("cat")]) (Image.mk 20 20 3)
        (2, 3, 10, 9) ("cat"))).2 ≠ ("cat") := by
  decide

/-- Claim C2, amended: decode∘encode reproduces bboxes and labels exactly for
PascalVOC; for YOLO it reproduces the bboxes exactly (hence within one pixel)
but replaces each label by the decimal string of its class-map integer id. -/
theorem round_trip_voc_yolo (folder name : String) (img : Image)
    (objsIn : List ((ℤ × ℤ × ℤ × ℤ) × String)) (d : String → ℕ)
    (bb : ℤ × ℤ × ℤ × ℤ) (c : String)
    (hh : img.height ≠ 0) (hw : img.width ≠ 0) :
    PascalVOC.loadDoc (PascalVOC.downloadDoc folder name img objsIn) = (name, objsIn) ∧
    YOLO.loadLine img (YOLO.downloadLine d img bb c) = (bb, toString (d c)) :=
  ⟨voc_round_trip_doc folder name img objsIn, yolo_round_trip_line d img bb c hh hw⟩

/-- Witness for the amended claim C2 at the concrete record used in the
counterexample. -/
theorem round_trip_voc_yolo_w :
    ((Image.mk 20 20 3).height ≠ 0) ∧ ((Image.mk 20 20 3).width ≠ 0) ∧
    (PascalVOC.loadDoc (PascalVOC.downloadDoc ("f") ("n") (Image.mk 20 20 3)
        [((2, 3, 10, 9), "cat")]) = (("n"), [((2, 3, 10, 9), "cat")]) ∧
     YOLO.loadLine (Image.mk 20 20 3)
        (YOLO.downloadLine (YOLO.classesDict [("cat")]) (Image.mk 20 20 3)
          (2, 3, 10, 9) ("cat")) =
       ((2, 3, 10, 9), toString (YOLO.classesDict [("cat")] ("cat")))) :=
  ⟨by decide, by decide,
    round_trip_voc_yolo ("f") ("n") (Image.mk 20 20 3) [((2, 3, 10, 9), "cat")]
      (YOLO.classesDict [("cat")]) (2, 3, 10, 9) ("cat") (by decide) (by decide)⟩

/-- Claim C3 (code bug): evaluating the assembled record at a record with one
masked object, the mask feature holds the raw `masks` argument unchanged, and
identically so for two different mask encoders — the PNG-encoded
`encode_masks` list is computed but never written. -/
theorem tfexample_mask_field_raw :
    (createExample String ℕ Nat.repr String.length ("IMG") (Image.mk 4 4 3) ("a.png")
        [(0, 0, 2, 2)] [7] [("cat")] [[7]]).maskFeature = [[7]] ∧
    (createExample String ℕ constEmptyBytes String.length ("IMG") (Image.mk 4 4 3) ("a.png")
        [(0, 0, 2, 2)] [7] [("cat")] [[7]]).maskFeature = [[7]] :=
  ⟨rfl, rfl⟩

/-- Claim C4 (code bug): the class map follows the set iteration order, not a
lexicographic sort: for the labels ["cat", "dog", "cat"], the iteration order
["dog", "cat"] is a permutation of the distinct label set, and under it the
map sends "cat" to 2 and "dog" to 1, not {"cat": 1, "dog": 2}. -/
theorem class_map_order_dependent :
    (["dog", "cat"] : List String).Perm (["cat", "dog", "cat"] : List String).dedup ∧
    classMapFromOrder ["dog", "cat"] ("cat") = 2 ∧
    classMapFromOrder ["dog", "cat"] ("dog") = 1 := by
  decide

/-- Claim C5, counterexample: for an image of pixel height 20 and pixel width
30, the width child of the size element written by `PascalVOC.download` holds
20, not the pixel width 30. -/
theorem voc_size_width_not_pixel_width :
    (PascalVOC.downloadDoc ("d") ("n.png") (Image.mk 20 30 3) []).sizeWidth ≠
      (Image.mk 20 30 3).width := by
  decide

/-- Claim C5, amended: the size element written by `PascalVOC.download` holds
the first shape component (the pixel height) in its width child, the second
shape component (the pixel width) in its height child, and the channel depth
in its depth child. -/
theorem voc_size_swapped (folder name : String) (img : Image)
    (objsIn : List ((ℤ × ℤ × ℤ × ℤ) × String)) :
    (PascalVOC.downloadDoc folder name img objsIn).sizeWidth = img.height ∧
    (PascalVOC.downloadDoc folder name img objsIn).sizeHeight = img.width ∧
    (PascalVOC.downloadDoc folder name img objsIn).sizeDepth = img.depth :=
  ⟨rfl, rfl, rfl⟩

/-- Claim C6: on the 20×20 image with bbox (y0=2, x0=3, y1=10, x1=9), the
YOLO line's numeric fields are 0.15, 0.10, 0.30, 0.40 in order, and decoding
that line reproduces the bbox (2, 3, 10, 9) exactly (hence within one pixel
of rounding). -/
theorem yolo_numeric_example :
    (YOLO.downloadLine (YOLO.classesDict [("fish")]) (Image.mk 20 20 3)
        (2, 3, 10, 9) ("fish")).x0 = 15/100 ∧
    (YOLO.downloadLine (YOLO.classesDict [("fish")]) (Image.mk 20 20 3)
        (2, 3, 10, 9) ("fish")).y0 = 10/100 ∧
    (YOLO.downloadLine (YOLO.classesDict [("fish")]) (Image.mk 20 20 3)
        (2, 3, 10, 9) ("fish")).dx = 30/100 ∧
    (YOLO.downloadLine (YOLO.classesDict [("fish")]) (Image.mk 20 20 3)
        (2, 3, 10, 9) ("fish")).dy = 40/100 ∧
    YOLO.loadLine (Image.mk 20 20 3)
        (YOLO.downloadLine (YOLO.classesDict [("fish")]) (Image.mk 20 20 3)
          (2, 3, 10, 9) ("fish")) =
      ((2, 3, 10, 9), toString (YOLO.classesDict [("fish")] ("fish"))) := by
  refine ⟨?_, ?_, ?_, ?_, ?_⟩
  · show ((3 : ℤ) : ℚ) / ((20 : ℕ) : ℚ) = 15/100
    norm_num
  · show ((2 : ℤ) : ℚ) / ((20 : ℕ) : ℚ) = 10/100
    norm_num
  · show (((9 - 3 : ℤ)) : ℚ) / ((20 : ℕ) : ℚ) = 30/100
    norm_num
  · show (((10 - 2 : ℤ)) : ℚ) / ((20 : ℕ) : ℚ) = 40/100
    norm_num
  · exact yolo_round_trip_line (YOLO.classesDict [("fish")]) (Image.mk 20 20 3)
      (2, 3, 10, 9) ("fish") (by decide) (by decide)

/-- Claim C7: for `S ≥ 1` shards, shard `s` receives exactly the records whose
sequence index is congruent to `s` modulo `S`, in sequence order, and the
combined record count over the `S` shards equals the number of records. -/
theorem shard_assignment_and_count {β : Type} (S : ℕ) (recs : List β) (s : ℕ)
    (hS : 1 ≤ S) :
    createTfrecordShards S recs s =
      (recs.enum.filter (fun p => decide (p.1 % S = s))).map Prod.snd ∧
    (Finset.range S).sum (fun t => (createTfrecordShards S recs t).length) =
      recs.length := by
  have hchar : ∀ t : ℕ, createTfrecordShards S recs t =
      (recs.enum.filter (fun p => decide (p.1 % S = t))).map Prod.snd := by
    intro t
    rw [createTfrecordShards, shardWriteLoop_apply]
    simp
  refine ⟨hchar s, ?_⟩
  calc (Finset.range S).sum (fun t => (createTfrecordShards S recs t).length)
      = (Finset.range S).sum
          (fun t => ((recs.enum.filter (fun p => decide (p.1 % S = t))).map Prod.snd).length) :=
        Finset.sum_congr rfl (fun t _ => by rw [hchar t])
    _ = recs.enum.length := filter_mod_length_sum S hS recs.enum
    _ = recs.length := List.enum_length

/-- Witness for claim C7 at three records and two shards. -/
theorem shard_assignment_and_count_w :
    (1 ≤ 2) ∧
    (createTfrecordShards 2 [("a"), ("b"), ("c")] 1 =
        (([("a"), ("b"), ("c")].enum.filter (fun p => decide (p.1 % 2 = 1))).map Prod.snd) ∧
     (Finset.range 2).sum (fun t => (createTfrecordShards 2 [("a"), ("b"), ("c")] t).length) =
       [("a"), ("b"), ("c")].length) :=
  ⟨by decide, shard_assignment_and_count 2 [("a"), ("b"), ("c")] 1 (by decide)⟩

/-- Claim C8: for a directory argument (one not itself ending in `.json`),
`VGG.load` fails with a missing annotation source exactly when the listing
has no `.json` candidate and with an ambiguous annotation source exactly when
it has two or more; analogously, `YOLO.load`'s image resolution fails with a
missing image exactly when no candidate path exists and with an ambiguous
image exactly when two or more exist. -/
theorem discovery_rules (annotDir : String) (listing : List String)
    (pathExists : String → Bool) (imageDir file : String)
    (hdir : pyEndsWith annotDir (".json") = false) :
    (VGG.resolveAnnotFile annotDir listing = Except.error LoadErr.missingAnnotSource ↔
      listing.filter (fun f => pyEndsWith f (".json")) = []) ∧
    (VGG.resolveAnnotFile annotDir listing = Except.error LoadErr.ambiguousAnnotSource ↔
      2 ≤ (listing.filter (fun f => pyEndsWith f (".json"))).length) ∧
    (YOLO.resolveImage pathExists imageDir file = Except.error LoadErr.missingImage ↔
      YOLO.imageCandidates pathExists imageDir file = []) ∧
    (YOLO.resolveImage pathExists imageDir file = Except.error LoadErr.ambiguousImage ↔
      2 ≤ (YOLO.imageCandidates pathExists imageDir file).length) := by
  refine ⟨?_, ?_, ?_, ?_⟩
  · rcases hfl : listing.filter (fun f => pyEndsWith f (".json")) with - | ⟨f1, - | ⟨f2, fr⟩⟩ <;>
      simp [VGG.resolveAnnotFile, hdir, hfl]
  · rcases hfl : listing.filter (fun f => pyEndsWith f (".json")) with - | ⟨f1, - | ⟨f2, fr⟩⟩ <;>
      simp [VGG.resolveAnnotFile, hdir, hfl]
  · rcases hic : YOLO.imageCandidates pathExists imageDir file with - | ⟨p1, - | ⟨p2, pr⟩⟩ <;>
      simp [YOLO.resolveImage, hic]
  · rcases hic : YOLO.imageCandidates pathExists imageDir file with - | ⟨p1, - | ⟨p2, pr⟩⟩ <;>
      simp [YOLO.resolveImage, hic]

/-- Witness for claim C8: a directory listing with two `.json` files and an
image directory with no files. -/
theorem discovery_rules_w :
    (pyEndsWith ("anns") (".json") = false) ∧
    ((VGG.resolveAnnotFile ("anns") ["a.json", "b.json"] =
        Except.error LoadErr.missingAnnotSource ↔
      ["a.json", "b.json"].filter (fun f => pyEndsWith f (".json")) = []) ∧
     (VGG.resolveAnnotFile ("anns") ["a.json", "b.json"] =
        Except.error LoadErr.ambiguousAnnotSource ↔
      2 ≤ (["a.json", "b.json"].filter (fun f => pyEndsWith f (".json"))).length) ∧
     (YOLO.resolveImage noFile ("imgs") ("t.txt") = Except.error LoadErr.missingImage ↔
      YOLO.imageCandidates noFile ("imgs") ("t.txt") = []) ∧
     (YOLO.resolveImage noFile ("imgs") ("t.txt") = Except.error LoadErr.ambiguousImage ↔
      2 ≤ (YOLO.imageCandidates noFile ("imgs") ("t.txt")).length)) :=
  ⟨by decide,
    discovery_rules ("anns") ["a.json", "b.json"] noFile ("imgs") ("t.txt") (by decide)⟩

/-- Claim C9 (code bug): evaluating the save-name computation on the input
name "dog.png": `str.strip` removes a character set from both ends, so the
output files are named "do.xml" and "do.txt", not "dog.xml" and "dog.txt". -/
theorem save_name_strip_mangles :
    PascalVOC.outputFileName ("dog.png") = ("do.xml") ∧
    YOLO.outputFileName ("dog.png") = ("do.txt") := by
  decide

/-- Claim C10: whenever the annotations location ends in `.json`, the path
`VGG.load` opens is the location joined with itself, which is never the given
file path. -/
theorem vgg_json_path_self_join (loc : String) (listing : List String)
    (h : pyEndsWith loc (".json") = true) :
    VGG.openedPath loc listing = Except.ok (loc ++ "/" ++ loc) ∧
    loc ++ "/" ++ loc ≠ loc := by
  constructor
  · simp [VGG.openedPath, VGG.resolveAnnotFile, h]
  · intro he
    have hlen := congrArg String.length he
    rw [String.length_append, String.length_append] at hlen
    have h1 : ("/" : String).length = 1 := rfl
    rw [h1] at hlen
    omega

/-- Witness for claim C10 at the location "a.json". -/
theorem vgg_json_path_self_join_w :
    (pyEndsWith ("a.json") (".json") = true) ∧
    (VGG.openedPath ("a.json") [] = Except.ok (("a.json") ++ "/" ++ ("a.json")) ∧
     ("a.json") ++ "/" ++ ("a.json") ≠ ("a.json")) :=
  ⟨by decide, vgg_json_path_self_join ("a.json") [] (by decide)⟩

end DatasetMaker
